import Mathlib

/-!
Verification of the document-lifecycle state machine of the Crab text
editor (`src/ice_editor/src/main.rs`).

The core of the program is a pure reducer `Editor::update` over a small
message algebra, together with three asynchronous file-gateway functions
(`load_file`, `save_file`, `pick_file`).  We embed the reducer and the
gateway shallowly:

* machine state `Editor` mirrors the Rust struct `Editor`
  (`path`, `content`, `error`);
* the external `iced::widget::text_editor::Content` widget is modelled as
  a text buffer with a cursor, with `Content::new`, `Content::with`,
  `Content::edit` and `Content::text` counterparts;
* the filesystem and the OS file dialogs are external resources; they are
  modelled as explicit parameters: a map from paths to read results plus
  write permissions (`FS`), and the dialog outcome as an
  `Option Path` (`none` = user cancelled);
* the async commands returned by `update` are reified as a `Cmd` datum,
  so "`update` schedules exactly this operation" is a statement about a
  value.
-/

namespace Crab

/-- Filesystem paths (`std::path::PathBuf`), modelled as strings. -/
def FilePath : Type := String

instance : DecidableEq FilePath := fun a b => String.decEq a b

/-- A closed approximation of `std::io::ErrorKind`: the kinds the claims
mention plus a catch-all. -/
inductive IOErrorKind where
  | notFound
  | permissionDenied
  | invalidData
  | other
deriving DecidableEq, Repr

/-- The error enum of `main.rs` (lines 187-191): `DialogClosed | IO(kind)`. -/
inductive Error where
  | dialogClosed
  | io (kind : IOErrorKind)
deriving DecidableEq, Repr

/-- Model of the external `iced` widget `text_editor::Content`: the buffer
text as a character list plus a cursor index into it. -/
structure Content where
  chars : List Char
  cursor : Nat
deriving DecidableEq, Repr

/-- `text_editor::Content::new()`: empty buffer, cursor at start. -/
def Content.empty : Content := ⟨[], 0⟩

/-- `text_editor::Content::with(&content)`: the given text, cursor reset to
the start. -/
def Content.withText (s : String) : Content := ⟨s.data, 0⟩

/-- `Content::text()`: the buffer text as a string. -/
def Content.text (c : Content) : String := String.mk c.chars

/-- Model of the external `text_editor::Action` enum: a representative set
of edit actions the widget can deliver. -/
inductive Action where
  | insert (ch : Char)
  | backspace
  | moveTo (i : Nat)
deriving DecidableEq, Repr

/-- `Content::edit(action)`: apply one edit action to the buffer. -/
def Content.edit (c : Content) (a : Action) : Content :=
  match a with
  | .insert ch =>
      ⟨c.chars.take c.cursor ++ ch :: c.chars.drop c.cursor, c.cursor + 1⟩
  | .backspace =>
      if c.cursor = 0 then c
      else ⟨c.chars.take (c.cursor - 1) ++ c.chars.drop c.cursor, c.cursor - 1⟩
  | .moveTo i => ⟨c.chars, min i c.chars.length⟩

/-- The external filesystem, as the gateway functions observe it:
`read` gives the result of reading a whole file at a path
(`Except.error k` = the read fails with kind `k`, in particular a missing
file reads as `.error .notFound`); `canWrite` says whether a whole-file
write to the path succeeds; `writeErr` is the kind reported when it does
not. -/
structure FS where
  read : FilePath → Except IOErrorKind String
  canWrite : FilePath → Bool
  writeErr : FilePath → IOErrorKind

/-- `tokio::fs::write(&path, &text)`: on success the file at `path` now
reads back as `text`; on failure the filesystem is untouched and an error
kind is reported. -/
def FS.write (fs : FS) (p : FilePath) (text : String) :
    Except IOErrorKind Unit × FS :=
  if fs.canWrite p then
    (Except.ok (),
     { fs with read := fun q => if q = p then Except.ok text else fs.read q })
  else (Except.error (fs.writeErr p), fs)

/-- `load_file` (main.rs lines 160-168): read the file at `path`; map a
read failure to `Error::IO(kind)`; on success return the path paired with
the content. -/
def load_file (fs : FS) (path : FilePath) : Except Error (FilePath × String) :=
  match fs.read path with
  | .error k => .error (.io k)
  | .ok content => .ok (path, content)

/-- `pick_file` (main.rs lines 149-157): show the open dialog
(`dialog = none` models the user dismissing it, giving
`Error::DialogClosed`); on a selection, delegate to `load_file`. -/
def pick_file (fs : FS) (dialog : Option FilePath) :
    Except Error (FilePath × String) :=
  match dialog with
  | none => .error .dialogClosed
  | some p => load_file fs p

/-- `save_file` (main.rs lines 171-185), path resolution step: use the
given path if present, otherwise ask the save dialog; `dialog = none`
models the user cancelling, giving `Error::DialogClosed`. -/
def resolveSavePath (dialog : Option FilePath) (path : Option FilePath) :
    Except Error FilePath :=
  match path with
  | some p => .ok p
  | none =>
      match dialog with
      | none => .error .dialogClosed
      | some p => .ok p

/-- `save_file` (main.rs lines 171-185): resolve the target path, then
write `text` to it, mapping a write failure to `Error::IO(kind)`. -/
def save_file (fs : FS) (dialog : Option FilePath) (path : Option FilePath)
    (text : String) : Except Error Unit × FS :=
  match resolveSavePath dialog path with
  | .error e => (.error e, fs)
  | .ok p =>
      match fs.write p text with
      | (.ok (), fs') => (.ok (), fs')
      | (.error k, fs') => (.error (.io k), fs')

/-- The `Message` enum of `main.rs` (lines 30-38). -/
inductive Message where
  | edit (a : Action)
  | openFile
  | fileOpened (r : Except Error (FilePath × String))
  | newFile
  | save
  | fileSaved (r : Except Error Unit)

/-- The async operation scheduled by a transition, reified: `Command::none()`,
`Command::perform(load_file(p), FileOpened)`,
`Command::perform(pick_file(), FileOpened)`, or
`Command::perform(save_file(path, text), FileSaved)`. -/
inductive Cmd where
  | none
  | performLoad (p : FilePath)
  | performPick
  | performSave (path : Option FilePath) (text : String)
deriving DecidableEq

/-- The `Editor` struct of `main.rs` (lines 24-28). -/
structure Editor where
  path : Option FilePath
  content : Content
  error : Option Error
deriving DecidableEq

/-- `default_file()` (main.rs lines 143-145): the fixed compile-time path
`CARGO_MANIFEST_DIR/src/main.rs`. -/
def default_file : FilePath := "ice_editor/src/main.rs"

/-- `Editor::new` (main.rs lines 46-57): initial state with no path, empty
buffer and no error, plus the single startup command
`Command::perform(load_file(default_file()), FileOpened)`. -/
def Editor.init : Editor × Cmd :=
  ({ path := none, content := Content.empty, error := none },
   Cmd.performLoad default_file)

/-- The state component of `Editor.init`. -/
def Editor.initState : Editor := Editor.init.1

/-- `Editor::update` (main.rs lines 63-104): the pure state-transition
function, with the scheduled async operation reified as a `Cmd`. -/
def Editor.update (s : Editor) (m : Message) : Editor × Cmd :=
  match m with
  | .edit a =>
      ({ s with content := s.content.edit a, error := none }, .none)
  | .openFile => (s, .performPick)
  | .fileOpened (.ok (p, content)) =>
      ({ s with path := some p, content := Content.withText content }, .none)
  | .newFile =>
      ({ s with path := none, content := Content.empty }, .none)
  | .save => (s, .performSave s.path s.content.text)
  | .fileSaved (.ok ()) => ({ s with error := none }, .none)
  | .fileSaved (.error e) => ({ s with error := some e }, .none)
  | .fileOpened (.error e) => ({ s with error := some e }, .none)

/-- The status line of `Editor::view` (main.rs lines 116-124): an `IO`
error is rendered as its message; otherwise the current path, or
"New File" when there is none.  `DialogClosed` is never rendered as an
error. -/
def statusText (s : Editor) : String :=
  match s.error with
  | some (.io k) =>
      match k with
      | .notFound => "entity not found"
      | .permissionDenied => "permission denied"
      | .invalidData => "invalid data"
      | .other => "other error"
  | _ =>
      match s.path with
      | some p => p
      | none => "New File"

/-- Run the reducer over a list of messages from a starting state,
keeping only the state (the command of each step is handled by the
runtime). -/
def runFrom (s : Editor) (ms : List Message) : Editor :=
  ms.foldl (fun st m => (st.update m).1) s

/-- Run the reducer over a list of messages from the startup state. -/
def run (ms : List Message) : Editor := runFrom Editor.initState ms

/-- One step of the path history: `FileOpened(Ok(p, _))` establishes `p`,
`New` forgets the path, every other event keeps it. -/
def specPathStep (acc : Option FilePath) (m : Message) : Option FilePath :=
  match m with
  | .fileOpened (.ok (p, _)) => some p
  | .newFile => none
  | _ => acc

/-- The path a message list leaves the machine with: the payload of the
latest `FileOpened(Ok(p, _))` not followed by a `New`, if any. -/
def specPath (ms : List Message) : Option FilePath :=
  ms.foldl specPathStep none

/-- A filesystem with no readable files, on which every write succeeds. -/
def fsEmpty : FS :=
  { read := fun _ => Except.error .notFound,
    canWrite := fun _ => true,
    writeErr := fun _ => IOErrorKind.other }

/-- A filesystem with no readable files on which writes to `/ro` fail with
`permissionDenied` and all other writes succeed. -/
def fsRestricted : FS :=
  { read := fun _ => Except.error .notFound,
    canWrite := fun q => q != "/ro",
    writeErr := fun _ => IOErrorKind.permissionDenied }

/-- Every transition changes `path` exactly as the path-history step
function says. -/
lemma update_path (s : Editor) (m : Message) :
    ((s.update m).1).path = specPathStep s.path m := by
  cases m with
  | edit a => rfl
  | openFile => rfl
  | fileOpened r =>
      cases r with
      | ok v => obtain ⟨p, c⟩ := v; rfl
      | error e => rfl
  | newFile => rfl
  | save => rfl
  | fileSaved r =>
      cases r with
      | ok u => cases u; rfl
      | error e => rfl

/-- Folding the reducer and folding the path-history step agree from any
starting state. -/
lemma runFrom_path (ms : List Message) :
    ∀ s : Editor, (runFrom s ms).path = ms.foldl specPathStep s.path := by
  induction ms with
  | nil => intro s; rfl
  | cons m ms ih =>
      intro s
      have h1 : runFrom s (m :: ms) = runFrom ((s.update m).1) ms := rfl
      rw [h1, ih, List.foldl_cons, update_path]

/-- C4: for every state and every error `e`, `LoadCompleted(Err(e))` and
`SaveCompleted(Err(e))` leave `current_path` and the buffer unchanged: the
resulting state is exactly the prior state with only `last_error`
replaced by `Some(e)`. -/
theorem loadErr_saveErr_frame (s : Editor) (e : Error) :
    (s.update (.fileOpened (.error e))).1 = { s with error := some e } ∧
    (s.update (.fileSaved (.error e))).1 = { s with error := some e } :=
  ⟨rfl, rfl⟩

/-- C5: for every state and every edit action `a`, `EditAction(a)` applies
`a` to the buffer and sets `last_error` to `None` (so in particular any
previously recorded error, such as `Some(IO(..))`, is cleared), scheduling
no async operation. -/
theorem edit_applies_and_clears_error (s : Editor) (a : Action) :
    s.update (.edit a) =
      ({ s with content := s.content.edit a, error := none }, Cmd.none) :=
  rfl

/-- C6: for every prior state, the `New` event yields `current_path = None`
and an empty buffer, regardless of the prior path, buffer, or error. -/
theorem new_resets_path_and_buffer (s : Editor) :
    (s.update .newFile).1 = { s with path := none, content := Content.empty } ∧
    Content.empty.chars = [] ∧ Content.empty.text = "" :=
  ⟨rfl, rfl, rfl⟩

/-- C10: processing `New` leaves `last_error` unchanged — only
`current_path` and the buffer are reset, so a previously displayed error
survives the `New` action. -/
theorem new_preserves_error (s : Editor) :
    (s.update .newFile).1.error = s.error :=
  rfl

/-- C1 counterexample: in the state with a recorded `IO(NotFound)` error,
processing `LoadCompleted(Ok("a.txt", "hi"))` does NOT clear `last_error`:
the claim that every successful file operation clears `last_error` fails
on the successful load. -/
theorem load_ok_keeps_error_counterexample :
    (({ path := none, content := Content.empty,
        error := some (.io .notFound) } : Editor).update
      (.fileOpened (.ok ("a.txt", "hi")))).1.error ≠ none := by
  decide

/-- C1 amended: `SaveCompleted(Ok)` clears `last_error`, but
`LoadCompleted(Ok(path, content))` leaves `last_error` exactly as it was
(while setting the path and buffer). -/
theorem save_ok_clears_load_ok_keeps_error (s : Editor) (p : FilePath)
    (c : String) :
    (s.update (.fileSaved (.ok ()))).1.error = none ∧
    (s.update (.fileOpened (.ok (p, c)))).1.error = s.error ∧
    (s.update (.fileOpened (.ok (p, c)))).1.path = some p ∧
    (s.update (.fileOpened (.ok (p, c)))).1.content = Content.withText c :=
  ⟨rfl, rfl, rfl, rfl⟩

/-- C2 counterexample: from the startup state, `SaveRequested` schedules
`save(None, "")`; with the save-as dialog returning `/tmp/a.txt` the save
succeeds and the file at `/tmp/a.txt` now holds the buffer text, yet the
resulting `SaveCompleted(Ok)` transition leaves `current_path = None`,
not `Some("/tmp/a.txt")`: a save completed through the save-as dialog
does not establish the chosen path as `current_path`. -/
theorem save_as_does_not_set_path_counterexample :
    (Editor.initState.update .save).2 = Cmd.performSave none "" ∧
    (save_file fsEmpty (some "/tmp/a.txt") none "").1 = .ok () ∧
    (save_file fsEmpty (some "/tmp/a.txt") none "").2.read "/tmp/a.txt"
      = .ok "" ∧
    (Editor.initState.update (.fileSaved (.ok ()))).1.path
      ≠ some "/tmp/a.txt" := by
  refine ⟨rfl, ?_, ?_, by decide⟩ <;>
    simp [save_file, resolveSavePath, FS.write, fsEmpty]

/-- C2 amended: in every state reached by a message sequence,
`current_path` is `Some(p)` exactly when the latest
`LoadCompleted(Ok(p, _))` is more recent than any `New`; successful saves
— including saves completed through the save-as dialog, whose completion
event carries no path — never establish or change `current_path`. -/
theorem path_iff_loaded_since_new (ms : List Message) :
    (run ms).path = specPath ms ∧
    (∀ (s : Editor) (r : Except Error Unit),
      (s.update (.fileSaved r)).1.path = s.path) := by
  refine ⟨runFrom_path ms Editor.initState, ?_⟩
  intro s r
  cases r with
  | ok u => cases u; rfl
  | error e => rfl

/-- C3 counterexample: in a state with `last_error = Some(IO(PermissionDenied))`,
processing `LoadCompleted(Err(DialogClosed))` does NOT leave the state
unchanged: `last_error` becomes `Some(DialogClosed)` instead of staying as
it was prior to the request. -/
theorem dialog_cancel_changes_state_counterexample :
    (({ path := none, content := Content.empty,
        error := some (.io .permissionDenied) } : Editor).update
        (.fileOpened (.error .dialogClosed))).1
      ≠ { path := none, content := Content.empty,
          error := some (.io .permissionDenied) } ∧
    (({ path := none, content := Content.empty,
        error := some (.io .permissionDenied) } : Editor).update
        (.fileOpened (.error .dialogClosed))).1.error
      = some .dialogClosed := by
  exact ⟨by decide, rfl⟩

/-- C3 amended: a cancelled open dialog (`LoadCompleted(Err(DialogClosed))`)
leaves `current_path` and the buffer untouched but records
`last_error = Some(DialogClosed)`, overwriting whatever error was there
before; the status bar never renders `DialogClosed` as an I/O failure —
it shows the same neutral path/"New File" status as the error-free
state. -/
theorem dialog_cancel_records_benign_error (s : Editor) :
    (s.update (.fileOpened (.error .dialogClosed))).1.path = s.path ∧
    (s.update (.fileOpened (.error .dialogClosed))).1.content = s.content ∧
    (s.update (.fileOpened (.error .dialogClosed))).1.error
      = some .dialogClosed ∧
    statusText (s.update (.fileOpened (.error .dialogClosed))).1
      = statusText { s with error := none } :=
  ⟨rfl, rfl, rfl, rfl⟩

/-- C7: `save(None, text)` consults the save-as dialog, fails with
`DialogClosed` exactly when the user cancels (and then touches nothing —
no default path is silently picked), and otherwise writes `text` to the
chosen path; `save(Some(p), text)` ignores the dialog entirely, writes
`text` to `p` on success, and fails with `IO(kind)` on any write
failure. -/
theorem save_file_spec (fs : FS) (text : String) :
    (save_file fs none none text = (.error .dialogClosed, fs)) ∧
    (∀ d : Option FilePath,
      ((save_file fs d none text).1 = .error .dialogClosed ↔ d = none)) ∧
    (∀ p : FilePath, fs.canWrite p = true →
      (save_file fs (some p) none text).1 = .ok () ∧
      (save_file fs (some p) none text).2.read p = .ok text) ∧
    (∀ (d d' : Option FilePath) (p : FilePath),
      save_file fs d (some p) text = save_file fs d' (some p) text) ∧
    (∀ (d : Option FilePath) (p : FilePath), fs.canWrite p = true →
      (save_file fs d (some p) text).1 = .ok () ∧
      (save_file fs d (some p) text).2.read p = .ok text) ∧
    (∀ (d : Option FilePath) (p : FilePath), fs.canWrite p = false →
      save_file fs d (some p) text = (.error (.io (fs.writeErr p)), fs)) := by
  refine ⟨rfl, ?_, ?_, ?_, ?_, ?_⟩
  · intro d
    cases d with
    | none => simp [save_file, resolveSavePath]
    | some q =>
        cases hw : fs.canWrite q with
        | true => simp [save_file, resolveSavePath, FS.write, hw]
        | false => simp [save_file, resolveSavePath, FS.write, hw]
  · intro p h
    exact ⟨by simp [save_file, resolveSavePath, FS.write, h],
           by simp [save_file, resolveSavePath, FS.write, h]⟩
  · intro d d' p
    rfl
  · intro d p h
    exact ⟨by simp [save_file, resolveSavePath, FS.write, h],
           by simp [save_file, resolveSavePath, FS.write, h]⟩
  · intro d p h
    simp [save_file, resolveSavePath, FS.write, h]

/-- C7 witness: the save specification evaluated on a concrete filesystem
where `/ro` is not writable and every other path is. -/
theorem save_file_spec_witness :
    (save_file fsRestricted none none "hi"
      = (.error .dialogClosed, fsRestricted)) ∧
    ((save_file fsRestricted (some "/a") none "hi").1
      = .error .dialogClosed ↔ (some "/a" : Option FilePath) = none) ∧
    ((save_file fsRestricted (some "/a") none "hi").1 = .ok () ∧
     (save_file fsRestricted (some "/a") none "hi").2.read "/a" = .ok "hi") ∧
    (save_file fsRestricted (some "/x") (some "/a") "hi"
      = save_file fsRestricted none (some "/a") "hi") ∧
    ((save_file fsRestricted none (some "/a") "hi").1 = .ok () ∧
     (save_file fsRestricted none (some "/a") "hi").2.read "/a" = .ok "hi") ∧
    (save_file fsRestricted none (some "/ro") "hi"
      = (.error (.io (fsRestricted.writeErr "/ro")), fsRestricted)) := by
  have h := save_file_spec fsRestricted "hi"
  exact ⟨h.1, h.2.1 (some "/a"), h.2.2.1 "/a" (by decide),
         h.2.2.2.1 (some "/x") none "/a",
         h.2.2.2.2.1 none "/a" (by decide),
         h.2.2.2.2.2 none "/ro" (by decide)⟩

/-- C8: startup yields an empty buffer, no path and no error, and
schedules exactly the one async operation `load(default_file)`; when the
default path is missing (reads as `NotFound`), feeding the completion back
in records `last_error = Some(IO(NotFound))` while the buffer stays empty
and the path stays `None`. -/
theorem startup_state_and_missing_default (fs : FS)
    (h : fs.read default_file = .error .notFound) :
    Editor.init = ({ path := none, content := Content.empty, error := none },
      Cmd.performLoad default_file) ∧
    load_file fs default_file = .error (.io .notFound) ∧
    (Editor.initState.update (.fileOpened (load_file fs default_file))).1
      = { path := none, content := Content.empty,
          error := some (.io .notFound) } := by
  have hl : load_file fs default_file = .error (.io .notFound) := by
    simp [load_file, h]
  exact ⟨rfl, hl, by rw [hl]; rfl⟩

/-- C8 witness: the startup scenario evaluated on a concrete filesystem
with no readable files. -/
theorem startup_state_and_missing_default_witness :
    fsEmpty.read default_file = Except.error .notFound ∧
    (Editor.initState.update (.fileOpened (load_file fsEmpty default_file))).1
      = { path := none, content := Content.empty,
          error := some (.io .notFound) } :=
  ⟨rfl, (startup_state_and_missing_default fsEmpty rfl).2.2⟩

/-- C9: round-trip — whenever `save(Some(p), text)` succeeds, loading `p`
from the resulting filesystem returns `text` unchanged, paired with the
same path `p` (for every text, the empty string and multi-line content
included). -/
theorem save_then_load_roundtrip (fs : FS) (d : Option FilePath)
    (p : FilePath) (text : String)
    (h : (save_file fs d (some p) text).1 = .ok ()) :
    load_file (save_file fs d (some p) text).2 p = .ok (p, text) := by
  cases hw : fs.canWrite p with
  | true => simp [save_file, resolveSavePath, FS.write, hw, load_file]
  | false =>
      exfalso
      simp [save_file, resolveSavePath, FS.write, hw] at h

/-- C9 witness: the round-trip evaluated on a concrete filesystem, a
concrete path and a concrete multi-line text. -/
theorem save_then_load_roundtrip_witness :
    (save_file fsEmpty none (some "/tmp/a.txt") "hello\nworld").1 = .ok () ∧
    load_file (save_file fsEmpty none (some "/tmp/a.txt") "hello\nworld").2
        "/tmp/a.txt"
      = .ok ("/tmp/a.txt", "hello\nworld") := by
  have h : (save_file fsEmpty none (some "/tmp/a.txt") "hello\nworld").1
      = .ok () := by
    simp [save_file, resolveSavePath, FS.write, fsEmpty]
  exact ⟨h, save_then_load_roundtrip fsEmpty none "/tmp/a.txt" "hello\nworld" h⟩

end Crab
